import Mathlib

/-!
# Verification of the OpenPilot ground drive controller

Shallow embedding of `src/flight/modules/PathFollower/grounddrivecontroller.cpp`
(class `GroundDriveController`) and the interfaces it uses, together with
theorems settling the specification claims about it.

Modelling conventions:
* `float` arithmetic is embedded as exact real arithmetic (`ℝ`).
* The UAVObject globals the controller reads and writes (`pathStatus`,
  `pathDesired`, the settings struct, the PID cascade object `controlNE`,
  the `mActive`/`mMode` members) are gathered into one explicit state record
  `GroundDriveState`; each C++ member function becomes a pure function from
  this record (plus the per-cycle external inputs) to the updated record and
  the values it publishes.
* The external path-geometry engine (`path_progress` from the paths library,
  out of scope for the controller per the spec) is passed in as a function
  parameter `engine : PathDesiredData → Vec3 → path_status`.
* `PIDControlNE` (the North-East cascade controller) is repository code that
  is not under `src/`; it is modelled from the spec, see its doc comment.
-/

noncomputable section

open Classical

/-- A North/East/Down coordinate triple, embedding the `float [3]` arrays of
the source (index 0 = north, 1 = east, 2 = down). -/
structure Vec3 where
  north : ℝ
  east  : ℝ
  down  : ℝ

/-- The `struct path_status` filled in by the external path-geometry engine
(`path_progress` in the paths library), as read by the controller. -/
structure path_status where
  fractional_progress : ℝ
  error : ℝ
  path_vector : Vec3
  correction_vector : Vec3

/-- `PositionStateData`: the position part of the externally owned kinematic
state, refreshed once per cycle. -/
structure PositionStateData where
  North : ℝ
  East  : ℝ
  Down  : ℝ

/-- `VelocityStateData`: the velocity part of the externally owned kinematic
state, refreshed once per cycle. -/
structure VelocityStateData where
  North : ℝ
  East  : ℝ
  Down  : ℝ

/-- `VelocityDesiredData`: the desired-velocity UAVObject published by
`updatePathVelocity`. -/
structure VelocityDesiredData where
  North : ℝ
  East  : ℝ
  Down  : ℝ

/-- The `Status` field options of the `PathStatus` UAVObject. -/
inductive PathStatusEnum where
  | InProgress
  | Completed
  | Critical
deriving DecidableEq

/-- System alarm severities used by `AlarmsSet` for the guidance alarm. -/
inductive AlarmLevel where
  | OK
  | Warning
  | Critical
  | Error
deriving DecidableEq

/-- Stabilization mode options for the `StabilizationDesired` channels. -/
inductive StabilizationMode where
  | Manual
  | Rate
  | AttitudeMode
deriving DecidableEq

/-- `PathStatusData`: the `pathStatus` UAVObject the controller mutates and
publishes each cycle (only the fields the controller touches). -/
structure PathStatusData where
  Status : PathStatusEnum
  path_time : ℝ
  error : ℝ
  fractional_progress : ℝ
  path_direction_north : ℝ
  path_direction_east : ℝ
  path_direction_down : ℝ
  correction_direction_north : ℝ
  correction_direction_east : ℝ
  correction_direction_down : ℝ

/-- `StabilizationDesiredData`: the actuation command published by
`updateGroundDesiredAttitude` (the CommandOutput of the spec). -/
structure StabilizationDesiredData where
  Roll : ℝ
  Pitch : ℝ
  Yaw : ℝ
  Thrust : ℝ
  StabilizationModeRoll : StabilizationMode
  StabilizationModePitch : StabilizationMode
  StabilizationModeYaw : StabilizationMode
  StabilizationModeThrust : StabilizationMode

/-- `PathDesiredData`: the externally owned path definition; the controller
itself only reads its `Mode` field, the rest is consumed by the external
engine. -/
structure PathDesiredData where
  Mode : ℕ

/-- The `SpeedPI` gain bank of `GroundPathFollowerSettingsData`. -/
structure SpeedPIData where
  Kp : ℝ
  Ki : ℝ
  Kd : ℝ
  Beta : ℝ

/-- The `ThrustLimit` bank of `GroundPathFollowerSettingsData`. -/
structure ThrustLimitData where
  Min : ℝ
  Max : ℝ

/-- `GroundPathFollowerSettingsData`: the ControllerParameters struct owned by
the external settings store (only the fields the controller reads). -/
structure GroundPathFollowerSettingsData where
  UpdatePeriod : ℝ
  HorizontalPosP : ℝ
  SpeedPI : SpeedPIData
  HorizontalVelMax : ℝ
  ThrustLimit : ThrustLimitData
  VelocityFeedForward : ℝ
  CourseFeedForward : ℝ

/-- `boundf` from the flight math library (not under `src/`).
Modelled from the spec: "clamp `throttleMagnitude` to `[thrustMin, thrustMax]`"
(§4.4) - the standard clamp, lower bound checked first. -/
def boundf (val mn mx : ℝ) : ℝ :=
  if val < mn then mn else if val > mx then mx else val

/-- `squaref(x) = x * x` from the flight math library. -/
def squaref (x : ℝ) : ℝ := x * x

/-- `RAD2DEG` conversion macro: radians to degrees. -/
def RAD2DEG (a : ℝ) : ℝ := a * (180 / Real.pi)

/-- `atan2f(y, x)`: the standard four-quadrant arctangent, embedded exactly
over ℝ. -/
def atan2 (y x : ℝ) : ℝ :=
  if 0 < x then Real.arctan (y / x)
  else if x < 0 then
    (if 0 ≤ y then Real.arctan (y / x) + Real.pi else Real.arctan (y / x) - Real.pi)
  else
    (if 0 < y then Real.pi / 2 else if y < 0 then -(Real.pi / 2) else 0)

/-- Modelled from the spec: class `PIDControlNE` (the North-East cascade
controller, `pidcontrolne.cpp`) is repository code that is not under `src/`;
only its call sites appear in the source. Its state is modelled from §4.3 of
the spec: parameter fields set by the three parameter-update operations, the
per-axis integrator accumulators and last-command cache of
ControllerInternalState, the current velocity state supplied each cycle, the
desired-velocity setpoints produced by the outer stage, and the armed flag. -/
structure PIDControlNE where
  posP : ℝ
  kp : ℝ
  ki : ℝ
  kd : ℝ
  beta : ℝ
  dT : ℝ
  velocityMax : ℝ
  minCommand : ℝ
  maxCommand : ℝ
  velocityFeedforward : ℝ
  integratorN : ℝ
  integratorE : ℝ
  lastCommandN : ℝ
  lastCommandE : ℝ
  velocityStateN : ℝ
  velocityStateE : ℝ
  setpointN : ℝ
  setpointE : ℝ
  armed : Bool

/-- Modelled from the spec (§4.3): "`activate()` resets the integrator and
cached command to zero and marks the stage armed". -/
def PIDControlNE.Activate (c : PIDControlNE) : PIDControlNE :=
  { c with integratorN := 0, integratorE := 0,
           lastCommandN := 0, lastCommandE := 0, armed := true }

/-- Modelled from the spec (§4.3): "`deactivate()` zeros the same state and
marks it disarmed". -/
def PIDControlNE.Deactivate (c : PIDControlNE) : PIDControlNE :=
  { c with integratorN := 0, integratorE := 0,
           lastCommandN := 0, lastCommandE := 0, armed := false }

/-- Modelled from the spec (§4.3): `UpdatePositionalParameters` stores the
outer-stage position gain; re-parameterization "never retroactively rewrites
the integrator". -/
def PIDControlNE.UpdatePositionalParameters (c : PIDControlNE) (g : ℝ) : PIDControlNE :=
  { c with posP := g }

/-- Modelled from the spec (§4.3): `UpdateParameters` stores the inner-loop
PID gains, derivative filter coefficient, cycle period and velocity limit,
leaving all controller state untouched. -/
def PIDControlNE.UpdateParameters (c : PIDControlNE)
    (kp ki kd beta dT velocityMax : ℝ) : PIDControlNE :=
  { c with kp := kp, ki := ki, kd := kd, beta := beta,
           dT := dT, velocityMax := velocityMax }

/-- Modelled from the spec (§4.3): `UpdateCommandParameters` stores the
command clamp range and the feed-forward coefficient. -/
def PIDControlNE.UpdateCommandParameters (c : PIDControlNE)
    (mn mx velocityFeedforward : ℝ) : PIDControlNE :=
  { c with minCommand := mn, maxCommand := mx,
           velocityFeedforward := velocityFeedforward }

/-- Modelled from the spec (§4.3): `UpdateVelocityState` records the current
horizontal velocity, "supplied externally each cycle". -/
def PIDControlNE.UpdateVelocityState (c : PIDControlNE) (n e : ℝ) : PIDControlNE :=
  { c with velocityStateN := n, velocityStateE := e }

/-- Modelled from the spec (§4.3): the outer (position) stage - "given the
ProgressResult's error and correction vector, scaled by `positionGain`,
produces a desired horizontal velocity vector. Desired velocity magnitude is
clamped to `maxHorizontalVelocity`." -/
def PIDControlNE.ControlPositionWithPath (c : PIDControlNE)
    (progress : path_status) : PIDControlNE :=
  let vN := progress.correction_vector.north * c.posP
  let vE := progress.correction_vector.east * c.posP
  let m := Real.sqrt (vN * vN + vE * vE)
  let scale := if c.velocityMax < m then c.velocityMax / m else 1
  { c with setpointN := vN * scale, setpointE := vE * scale }

/-- Modelled from the spec (§4.3): `GetVelocityDesired` reads back the
desired velocity stored by the outer stage. -/
def PIDControlNE.GetVelocityDesired (c : PIDControlNE) : ℝ × ℝ :=
  (c.setpointN, c.setpointE)

/-- Modelled from the spec (§4.3, §8): the inner (velocity) stage - per axis,
the proportional term on the velocity error plus the accumulated integrator
plus the open-loop feed-forward term "added directly to the output" (by the
§8 feed-forward law the whole term equals `velocityFeedForward` when gains
are zero), clamped to `[minCommand, maxCommand]`; the integrator accumulates
`Ki·error·dT` with standard anti-windup (integration pauses once the
unclamped output saturates). The derivative-filter contribution (`Kd`, `Beta`)
starts at zero and its internal update law is internal to the missing
`pidcontrolne.cpp`; no spec claim observes it, so the command law here carries
the P, I and feed-forward terms. Returns the command pair and the updated
cascade state (the source mutates the PID state in place). -/
def PIDControlNE.GetNECommand (c : PIDControlNE) : (ℝ × ℝ) × PIDControlNE :=
  let errN := c.setpointN - c.velocityStateN
  let errE := c.setpointE - c.velocityStateE
  let preN := c.kp * errN + c.integratorN + c.velocityFeedforward
  let preE := c.kp * errE + c.integratorE + c.velocityFeedforward
  let outN := boundf preN c.minCommand c.maxCommand
  let outE := boundf preE c.minCommand c.maxCommand
  let integN := if c.minCommand ≤ preN ∧ preN ≤ c.maxCommand then
      c.integratorN + c.ki * errN * c.dT else c.integratorN
  let integE := if c.minCommand ≤ preE ∧ preE ≤ c.maxCommand then
      c.integratorE + c.ki * errE * c.dT else c.integratorE
  ((outN, outE),
   { c with integratorN := integN, integratorE := integE,
            lastCommandN := outN, lastCommandE := outE })

/-- The whole mutable state of the `GroundDriveController` singleton together
with the globals it reads and writes: the settings reference installed by
`Initialize`, the `mActive`/`mMode` members, the `controlNE` cascade object,
and the `pathStatus`/`pathDesired` UAVObjects. -/
structure GroundDriveState where
  groundSettings : GroundPathFollowerSettingsData
  mActive : Bool
  mMode : ℕ
  controlNE : PIDControlNE
  pathStatus : PathStatusData
  pathDesired : PathDesiredData

/-- `GroundDriveController::resetGlobals` (lines 143-146): "reset integrals" -
sets `pathStatus->path_time` to zero. -/
def GroundDriveController.resetGlobals (s : GroundDriveState) : GroundDriveState :=
  { s with pathStatus := { s.pathStatus with path_time := 0 } }

/-- `GroundDriveController::SettingsUpdated` (lines 110-123): recomputes
`dT = UpdatePeriod / 1000` and pushes the position gain, the SpeedPI gains,
the velocity limit, the thrust limits and the feed-forward into the cascade
controller's three parameter-update operations. -/
def GroundDriveController.SettingsUpdated (s : GroundDriveState) : GroundDriveState :=
  let dT := s.groundSettings.UpdatePeriod / 1000
  { s with controlNE :=
      (((s.controlNE.UpdatePositionalParameters
            s.groundSettings.HorizontalPosP).UpdateParameters
          s.groundSettings.SpeedPI.Kp
          s.groundSettings.SpeedPI.Ki
          s.groundSettings.SpeedPI.Kd
          s.groundSettings.SpeedPI.Beta
          dT
          s.groundSettings.HorizontalVelMax).UpdateCommandParameters
        s.groundSettings.ThrustLimit.Min
        s.groundSettings.ThrustLimit.Max
        s.groundSettings.VelocityFeedForward) }

/-- `GroundDriveController::Activate` (lines 75-84): guarded on `!mActive`;
when engaging, sets `mActive`, re-derives settings, activates the cascade
controller, resets the globals and records the path mode. -/
def GroundDriveController.Activate (s : GroundDriveState) : GroundDriveState :=
  if s.mActive then s
  else
    let s1 := { s with mActive := true }
    let s2 := GroundDriveController.SettingsUpdated s1
    let s3 := { s2 with controlNE := s2.controlNE.Activate }
    let s4 := GroundDriveController.resetGlobals s3
    { s4 with mMode := s4.pathDesired.Mode }

/-- `GroundDriveController::Deactivate` (lines 100-107): guarded on `mActive`;
when disengaging, clears `mActive`, resets the globals and deactivates the
cascade controller. -/
def GroundDriveController.Deactivate (s : GroundDriveState) : GroundDriveState :=
  if s.mActive then
    let s1 := { s with mActive := false }
    let s2 := GroundDriveController.resetGlobals s1
    { s2 with controlNE := s2.controlNE.Deactivate }
  else s

/-- `GroundDriveController::IsActive` (lines 86-89). -/
def GroundDriveController.IsActive (s : GroundDriveState) : Bool :=
  s.mActive

/-- `GroundDriveController::Mode` (lines 91-94). -/
def GroundDriveController.Mode (s : GroundDriveState) : ℕ :=
  s.mMode

/-- The fatal outcome of a failed `PIOS_Assert`. Modelled from the spec (§7):
a missing settings pointer at `Initialize` "is a programming/sequencing
error, fatal at initialization (the controller refuses to initialize and
reports failure rather than running with undefined gains)"; `PIOS_Assert` is
PiOS library code not under `src/`. -/
inductive FatalFault where
  | assertionFailed
deriving DecidableEq

/-- `GroundDriveController::Initialize` (lines 129-138): asserts the settings
pointer (fatal when null, modelled as `Except.error`), installs it, resets
the globals and returns 0. The null pointer is modelled as `none`. -/
def GroundDriveController.Initialize (s : GroundDriveState)
    (ptr_groundSettings : Option GroundPathFollowerSettingsData) :
    Except FatalFault (GroundDriveState × Int) :=
  match ptr_groundSettings with
  | none => Except.error FatalFault.assertionFailed
  | some gs =>
      Except.ok (GroundDriveController.resetGlobals { s with groundSettings := gs }, 0)

/-- The type of the external path-geometry engine: `path_progress` from the
paths library takes the path definition and a query position and fills in a
`path_status`. It is out of scope for the controller (spec §1), so the
embedding is parametric in it. -/
def PathEngine : Type := PathDesiredData → Vec3 → path_status

/-- The look-ahead query point of `updatePathVelocity` (lines 188-190):
`cur = position + velocity * kFF` on each of the three axes. -/
def lookahead (positionState : PositionStateData) (velocityState : VelocityStateData)
    (kFF : ℝ) : Vec3 :=
  { north := positionState.North + velocityState.North * kFF,
    east  := positionState.East + velocityState.East * kFF,
    down  := positionState.Down + velocityState.Down * kFF }

/-- `GroundDriveController::updatePathVelocity` (lines 177-236): feeds the
current velocity to the cascade controller, queries the external engine at
the look-ahead point, runs the outer position stage on the result, publishes
the desired velocity (Down fixed at 0), and copies the progress metrics into
`pathStatus`. Returns the updated state and the published
`VelocityDesiredData`. -/
def GroundDriveController.updatePathVelocity (engine : PathEngine) (kFF : ℝ)
    (positionState : PositionStateData) (velocityState : VelocityStateData)
    (s : GroundDriveState) : GroundDriveState × VelocityDesiredData :=
  let c1 := s.controlNE.UpdateVelocityState velocityState.North velocityState.East
  let cur := lookahead positionState velocityState kFF
  let progress := engine s.pathDesired cur
  let c2 := c1.ControlPositionWithPath progress
  let velocityDesired : VelocityDesiredData :=
    { North := c2.GetVelocityDesired.1,
      East  := c2.GetVelocityDesired.2,
      Down  := 0 }
  let ps := { s.pathStatus with
              error := progress.error,
              fractional_progress := progress.fractional_progress,
              path_direction_north := progress.path_vector.north,
              path_direction_east := progress.path_vector.east,
              path_direction_down := progress.path_vector.down,
              correction_direction_north := progress.correction_vector.north,
              correction_direction_east := progress.correction_vector.east,
              correction_direction_down := progress.correction_vector.down }
  ({ s with controlNE := c2, pathStatus := ps }, velocityDesired)

/-- The straight-line body of `updateGroundDesiredAttitude` after the command
vector has been read from the cascade controller (lines 246-262): the Command
Mapper. Computes the course command `RAD2DEG(atan2f(east, north))`, the speed
command `sqrtf(squaref(north) + squaref(east))`, and builds the
`StabilizationDesired` output with neutral roll/pitch, the thrust bounded to
the configured thrust limits, and all channels in Manual mode. -/
def groundCommandMap (gs : GroundPathFollowerSettingsData)
    (northCommand eastCommand : ℝ) : StabilizationDesiredData :=
  let courseCommand := RAD2DEG (atan2 eastCommand northCommand)
  let speedCommand := Real.sqrt (squaref northCommand + squaref eastCommand)
  { Roll := 0,
    Pitch := 0,
    Yaw := courseCommand,
    Thrust := boundf speedCommand gs.ThrustLimit.Min gs.ThrustLimit.Max,
    StabilizationModeRoll := StabilizationMode.Manual,
    StabilizationModePitch := StabilizationMode.Manual,
    StabilizationModeYaw := StabilizationMode.Manual,
    StabilizationModeThrust := StabilizationMode.Manual }

/-- `GroundDriveController::updateGroundDesiredAttitude` (lines 241-265):
reads the command vector from the cascade controller (which advances the PID
state), maps it through the Command Mapper, publishes the result and returns
1 unconditionally. Returns the updated state, the published command and the
`uint8_t` result. -/
def GroundDriveController.updateGroundDesiredAttitude (s : GroundDriveState) :
    (GroundDriveState × StabilizationDesiredData) × ℕ :=
  let r := s.controlNE.GetNECommand
  let stabDesired := groundCommandMap s.groundSettings r.1.1 r.1.2
  (({ s with controlNE := r.2 }, stabDesired), 1)

/-- `GroundDriveController::updateAutoPilotGround` (lines 168-172): runs
`updatePathVelocity` with `CourseFeedForward` as the look-ahead horizon, then
`updateGroundDesiredAttitude`, and returns the latter's result. Bundles the
updated state with both published objects and the result. -/
def GroundDriveController.updateAutoPilotGround (engine : PathEngine)
    (positionState : PositionStateData) (velocityState : VelocityStateData)
    (s : GroundDriveState) :
    GroundDriveState × VelocityDesiredData × StabilizationDesiredData × ℕ :=
  let pv := GroundDriveController.updatePathVelocity engine
      s.groundSettings.CourseFeedForward positionState velocityState s
  let ga := GroundDriveController.updateGroundDesiredAttitude pv.1
  (ga.1.1, pv.2, ga.1.2, ga.2)

/-- Everything `UpdateAutoPilot` publishes during one cycle: the desired
velocity and stabilization command (set inside the helpers), the guidance
alarm, and the `pathStatus` object pushed by `PathStatusSet`. -/
structure CycleOutputs where
  velocityDesired : VelocityDesiredData
  stabDesired : StabilizationDesiredData
  guidanceAlarm : AlarmLevel
  publishedPathStatus : PathStatusData

/-- `GroundDriveController::UpdateAutoPilot` (lines 148-160), the per-period
entry point: runs `updateAutoPilotGround`; on a truthy result sets the OK
guidance alarm, otherwise marks `pathStatus` CRITICAL and sets the WARNING
alarm; finally publishes `pathStatus`. -/
def GroundDriveController.UpdateAutoPilot (engine : PathEngine)
    (positionState : PositionStateData) (velocityState : VelocityStateData)
    (s : GroundDriveState) : GroundDriveState × CycleOutputs :=
  let r := GroundDriveController.updateAutoPilotGround engine positionState velocityState s
  let s1 := r.1
  let result := r.2.2.2
  if result ≠ 0 then
    (s1, { velocityDesired := r.2.1,
           stabDesired := r.2.2.1,
           guidanceAlarm := AlarmLevel.OK,
           publishedPathStatus := s1.pathStatus })
  else
    let s2 := { s1 with pathStatus := { s1.pathStatus with Status := PathStatusEnum.Critical } }
    (s2, { velocityDesired := r.2.1,
           stabDesired := r.2.2.1,
           guidanceAlarm := AlarmLevel.Warning,
           publishedPathStatus := s2.pathStatus })

/-! ## Concrete fixtures used by witnesses and counterexamples -/

/-- Concrete settings: a 1000 ms update period (so `dT = 1`), zero gains, a
3 m/s velocity limit and thrust limits `[0, 10]`. -/
def gs0 : GroundPathFollowerSettingsData :=
  { UpdatePeriod := 1000,
    HorizontalPosP := 0,
    SpeedPI := { Kp := 0, Ki := 0, Kd := 0, Beta := 0 },
    HorizontalVelMax := 3,
    ThrustLimit := { Min := 0, Max := 10 },
    VelocityFeedForward := 0,
    CourseFeedForward := 0 }

/-- Concrete settings with thrust limits `[0, 1]`, used to exercise the
saturation law of the Command Mapper. -/
def gsW : GroundPathFollowerSettingsData :=
  { UpdatePeriod := 1000,
    HorizontalPosP := 0,
    SpeedPI := { Kp := 0, Ki := 0, Kd := 0, Beta := 0 },
    HorizontalVelMax := 3,
    ThrustLimit := { Min := 0, Max := 1 },
    VelocityFeedForward := 0,
    CourseFeedForward := 0 }

/-- Concrete cascade-controller state whose gains match `gs0` and whose
integrators hold `(3, 4)`, so the inner stage emits the command `(3, 4)`. -/
def cne0 : PIDControlNE :=
  { posP := 0, kp := 0, ki := 0, kd := 0, beta := 0, dT := 1,
    velocityMax := 3, minCommand := 0, maxCommand := 10,
    velocityFeedforward := 0,
    integratorN := 3, integratorE := 4,
    lastCommandN := 0, lastCommandE := 0,
    velocityStateN := 0, velocityStateE := 0,
    setpointN := 0, setpointE := 0,
    armed := true }

/-- A concrete active controller state built from `gs0` and `cne0`, with the
path-time accumulator at zero. -/
def st0 : GroundDriveState :=
  { groundSettings := gs0,
    mActive := true,
    mMode := 5,
    controlNE := cne0,
    pathStatus :=
      { Status := PathStatusEnum.InProgress, path_time := 0,
        error := 0, fractional_progress := 0,
        path_direction_north := 0, path_direction_east := 0,
        path_direction_down := 0,
        correction_direction_north := 0, correction_direction_east := 0,
        correction_direction_down := 0 },
    pathDesired := { Mode := 5 } }

/-- A concrete inactive controller state with stale internal values (nonzero
integrators, cached commands and path time), as left behind by some earlier
deactivation. -/
def stI : GroundDriveState :=
  { groundSettings := gs0,
    mActive := false,
    mMode := 2,
    controlNE := { cne0 with integratorN := 37, integratorE := -8,
                             lastCommandN := 9, lastCommandE := -9,
                             armed := false },
    pathStatus :=
      { Status := PathStatusEnum.InProgress, path_time := 123,
        error := 7, fractional_progress := 1,
        path_direction_north := 1, path_direction_east := 0,
        path_direction_down := 0,
        correction_direction_north := 0, correction_direction_east := 0,
        correction_direction_down := 0 },
    pathDesired := { Mode := 7 } }

/-- The zero position snapshot. -/
def pos0 : PositionStateData := { North := 0, East := 0, Down := 0 }

/-- The zero velocity snapshot. -/
def vel0 : VelocityStateData := { North := 0, East := 0, Down := 0 }

/-- A path-geometry engine output representing a degenerate (zero-length or
missing) path: zero direction and correction vectors, no progress
information. The engine has no fault channel towards the controller - for a
degenerate path it can only hand back such degenerate vectors. -/
def degenerateEngine : PathEngine :=
  fun _ _ =>
    { fractional_progress := 1, error := 0,
      path_vector := { north := 0, east := 0, down := 0 },
      correction_vector := { north := 0, east := 0, down := 0 } }

/-- Helper: `Real.sqrt 25 = 5`. -/
lemma sqrt_twentyfive : Real.sqrt 25 = 5 := by
  rw [show (25 : ℝ) = 5 ^ 2 by norm_num, Real.sqrt_sq (by norm_num : (0:ℝ) ≤ 5)]

/-! ## Claims -/

/-- **C3.** If `Initialize` is called without the settings (null
`groundSettings` pointer, modelled as `none`), the `PIOS_Assert` is fatal:
initialization fails with no resulting controller state (in particular it
never yields an initialized state from which `Activate` could run, and never
returns 0); if the settings pointer is supplied, `Initialize` installs it,
resets the globals and returns 0. -/
theorem grounddrive_C3 :
    (∀ s, GroundDriveController.Initialize s none =
      Except.error FatalFault.assertionFailed) ∧
    (∀ s r, GroundDriveController.Initialize s none ≠ Except.ok r) ∧
    (∀ s gs, GroundDriveController.Initialize s (some gs) =
      Except.ok (GroundDriveController.resetGlobals { s with groundSettings := gs }, 0)) :=
  ⟨fun _ => rfl, fun _ _ h => by simp [GroundDriveController.Initialize] at h,
   fun _ _ => rfl⟩

/-- **C4.** Immediately after `Activate()` from the Inactive state, the
cascade controller's integrators and the path-time accumulator all equal
zero - whatever their values were before - and the controller is Active. -/
theorem grounddrive_C4 (s : GroundDriveState) (h : s.mActive = false) :
    (GroundDriveController.Activate s).controlNE.integratorN = 0 ∧
    (GroundDriveController.Activate s).controlNE.integratorE = 0 ∧
    (GroundDriveController.Activate s).pathStatus.path_time = 0 ∧
    (GroundDriveController.Activate s).mActive = true := by
  simp [GroundDriveController.Activate, h, GroundDriveController.SettingsUpdated,
        GroundDriveController.resetGlobals, PIDControlNE.Activate,
        PIDControlNE.UpdatePositionalParameters, PIDControlNE.UpdateParameters,
        PIDControlNE.UpdateCommandParameters]

/-- Witness for C4: activating the concrete inactive state `stI`, whose
integrators hold 37 and -8 and whose path time is 123, zeroes all of them and
makes the controller Active. -/
theorem grounddrive_C4_witness :
    (GroundDriveController.Activate stI).controlNE.integratorN = 0 ∧
    (GroundDriveController.Activate stI).controlNE.integratorE = 0 ∧
    (GroundDriveController.Activate stI).pathStatus.path_time = 0 ∧
    (GroundDriveController.Activate stI).mActive = true :=
  grounddrive_C4 stI rfl

/-- **C5.** `Activate()` is idempotent: on an already-Active state a second
`Activate()` leaves the entire controller state unchanged (hence integrator,
path-time accumulator, recorded mode and active flag); symmetrically,
`Deactivate()` on an already-Inactive state is a no-op. -/
theorem grounddrive_C5 (s t : GroundDriveState)
    (hs : s.mActive = true) (ht : t.mActive = false) :
    GroundDriveController.Activate s = s ∧
    GroundDriveController.Deactivate t = t := by
  constructor
  · simp [GroundDriveController.Activate, hs]
  · simp [GroundDriveController.Deactivate, ht]

/-- Witness for C5: a second activation of the concrete active state `st0`
and a deactivation of the concrete inactive state `stI` both leave the state
unchanged. -/
theorem grounddrive_C5_witness :
    GroundDriveController.Activate st0 = st0 ∧
    GroundDriveController.Deactivate stI = stI :=
  grounddrive_C5 st0 stI rfl rfl

/-- **C8.** `SettingsUpdated()` recomputes the cycle period as
`UpdatePeriod / 1000` and pushes the position gain, the SpeedPI gains, the
velocity limit, the thrust limits and the feed-forward into the cascade
controller's parameter fields, while the integrators, the cached commands,
the armed flag, the active flag, the recorded mode and the path-time
accumulator are all unchanged. -/
theorem grounddrive_C8 (s : GroundDriveState) :
    (GroundDriveController.SettingsUpdated s).controlNE.dT =
      s.groundSettings.UpdatePeriod / 1000 ∧
    (GroundDriveController.SettingsUpdated s).controlNE.posP =
      s.groundSettings.HorizontalPosP ∧
    (GroundDriveController.SettingsUpdated s).controlNE.kp =
      s.groundSettings.SpeedPI.Kp ∧
    (GroundDriveController.SettingsUpdated s).controlNE.ki =
      s.groundSettings.SpeedPI.Ki ∧
    (GroundDriveController.SettingsUpdated s).controlNE.kd =
      s.groundSettings.SpeedPI.Kd ∧
    (GroundDriveController.SettingsUpdated s).controlNE.beta =
      s.groundSettings.SpeedPI.Beta ∧
    (GroundDriveController.SettingsUpdated s).controlNE.velocityMax =
      s.groundSettings.HorizontalVelMax ∧
    (GroundDriveController.SettingsUpdated s).controlNE.minCommand =
      s.groundSettings.ThrustLimit.Min ∧
    (GroundDriveController.SettingsUpdated s).controlNE.maxCommand =
      s.groundSettings.ThrustLimit.Max ∧
    (GroundDriveController.SettingsUpdated s).controlNE.velocityFeedforward =
      s.groundSettings.VelocityFeedForward ∧
    (GroundDriveController.SettingsUpdated s).controlNE.integratorN =
      s.controlNE.integratorN ∧
    (GroundDriveController.SettingsUpdated s).controlNE.integratorE =
      s.controlNE.integratorE ∧
    (GroundDriveController.SettingsUpdated s).controlNE.lastCommandN =
      s.controlNE.lastCommandN ∧
    (GroundDriveController.SettingsUpdated s).controlNE.lastCommandE =
      s.controlNE.lastCommandE ∧
    (GroundDriveController.SettingsUpdated s).controlNE.armed =
      s.controlNE.armed ∧
    (GroundDriveController.SettingsUpdated s).mActive = s.mActive ∧
    (GroundDriveController.SettingsUpdated s).mMode = s.mMode ∧
    (GroundDriveController.SettingsUpdated s).pathStatus.path_time =
      s.pathStatus.path_time := by
  refine ⟨rfl, rfl, rfl, rfl, rfl, rfl, rfl, rfl, rfl, rfl, rfl, rfl, rfl, rfl,
    rfl, rfl, rfl, rfl⟩

/-- **C7.** The Lookahead Predictor: the path-progress query point is
`p + v * kFF` componentwise on all three axes, and `updatePathVelocity`
queries the external engine at exactly this point (a pure function of
position, velocity and horizon - in particular independent of any controller
state). -/
theorem grounddrive_C7 (p : PositionStateData) (v : VelocityStateData) (kFF : ℝ) :
    ((lookahead p v kFF).north = p.North + v.North * kFF ∧
     (lookahead p v kFF).east = p.East + v.East * kFF ∧
     (lookahead p v kFF).down = p.Down + v.Down * kFF) ∧
    (∀ (engine : PathEngine) (s : GroundDriveState),
      (GroundDriveController.updatePathVelocity engine kFF p v s).1.pathStatus.error =
        (engine s.pathDesired (lookahead p v kFF)).error) :=
  ⟨⟨rfl, rfl, rfl⟩, fun _ _ => rfl⟩

/-- **C9.** For every input, `updateGroundDesiredAttitude` returns 1, so
`updateAutoPilotGround` always reports success, `UpdateAutoPilot` always sets
the OK guidance alarm, and the degraded branch is unreachable: the published
`pathStatus.Status` is never forced to CRITICAL (it keeps its incoming
value). -/
theorem grounddrive_C9 (engine : PathEngine) (pos : PositionStateData)
    (vel : VelocityStateData) (s : GroundDriveState) :
    (GroundDriveController.updateGroundDesiredAttitude s).2 = 1 ∧
    (GroundDriveController.updateAutoPilotGround engine pos vel s).2.2.2 = 1 ∧
    (GroundDriveController.UpdateAutoPilot engine pos vel s).2.guidanceAlarm =
      AlarmLevel.OK ∧
    (GroundDriveController.UpdateAutoPilot engine pos vel s).2.publishedPathStatus.Status =
      s.pathStatus.Status :=
  ⟨rfl, rfl, rfl, rfl⟩

/-- **C10.** On every control cycle the published desired velocity has its
Down component equal to exactly 0, for all kinematic states, path inputs and
controller states. -/
theorem grounddrive_C10 (engine : PathEngine) (kFF : ℝ) (pos : PositionStateData)
    (vel : VelocityStateData) (s : GroundDriveState) :
    (GroundDriveController.updatePathVelocity engine kFF pos vel s).2.Down = 0 ∧
    (GroundDriveController.updateAutoPilotGround engine pos vel s).2.1.Down = 0 :=
  ⟨rfl, rfl⟩

/-- **C2 (counterexample).** The claim says the path-time accumulator
increases by exactly one cycle period (`UpdatePeriod / 1000 = 1` second for
`st0`) on every successful cycle while Active. On the concrete active state
`st0` a successful `UpdateAutoPilot` cycle leaves `path_time` at 0, not
`0 + 1`: the code never advances the accumulator. -/
theorem grounddrive_C2_counterexample :
    (GroundDriveController.UpdateAutoPilot degenerateEngine pos0 vel0 st0).1.pathStatus.path_time ≠
      st0.pathStatus.path_time + st0.groundSettings.UpdatePeriod / 1000 := by
  have h : (GroundDriveController.UpdateAutoPilot degenerateEngine pos0 vel0
      st0).1.pathStatus.path_time = 0 := rfl
  rw [h]
  norm_num [st0, gs0]

/-- **C2 (amended).** `UpdateAutoPilot` never modifies the path-time
accumulator: after every cycle `pathStatus.path_time` equals its previous
value (it stays at the 0 written by the last reset, hence is trivially
monotonically non-decreasing between Activate/Deactivate resets). -/
theorem grounddrive_C2_amended (engine : PathEngine) (pos : PositionStateData)
    (vel : VelocityStateData) (s : GroundDriveState) :
    (GroundDriveController.UpdateAutoPilot engine pos vel s).1.pathStatus.path_time =
      s.pathStatus.path_time :=
  rfl

/-- **C1 (counterexample).** The claim says a cycle whose path geometry is
degenerate returns a false health flag and a safe zero command. On the
concrete state `st0`, with the engine output degenerate (zero path and
correction vectors, as for a zero-length path), the cycle still reports
success (result 1), sets the OK guidance alarm, and publishes a non-neutral
command (`Thrust = 5`, from the cascade controller's integrators), so the
health flag is not false and the command is not the safe zero command. -/
theorem grounddrive_C1_counterexample :
    (GroundDriveController.updateAutoPilotGround degenerateEngine pos0 vel0 st0).2.2.2 = 1 ∧
    (GroundDriveController.UpdateAutoPilot degenerateEngine pos0 vel0 st0).2.guidanceAlarm =
      AlarmLevel.OK ∧
    (GroundDriveController.UpdateAutoPilot degenerateEngine pos0 vel0 st0).2.stabDesired.Thrust = 5 := by
  refine ⟨rfl, rfl, ?_⟩
  norm_num [GroundDriveController.UpdateAutoPilot,
    GroundDriveController.updateAutoPilotGround,
    GroundDriveController.updatePathVelocity,
    GroundDriveController.updateGroundDesiredAttitude, groundCommandMap,
    PIDControlNE.GetNECommand, PIDControlNE.ControlPositionWithPath,
    PIDControlNE.UpdateVelocityState, PIDControlNE.GetVelocityDesired,
    lookahead, degenerateEngine, st0, gs0, cne0, pos0, vel0, boundf, squaref,
    Real.sqrt_zero, sqrt_twentyfive]

/-- **C1 (amended).** There is no geometry-fault handling: whatever the
external engine returns (degenerate or not), `UpdateAutoPilot` reports
success (OK guidance alarm), the published command is the one computed from
the engine's output by the normal pipeline (not held at a safe zero), and
the path-time accumulator does not advance (it is never advanced at all). -/
theorem grounddrive_C1_amended (engine : PathEngine) (pos : PositionStateData)
    (vel : VelocityStateData) (s : GroundDriveState) :
    (GroundDriveController.UpdateAutoPilot engine pos vel s).2.guidanceAlarm =
      AlarmLevel.OK ∧
    (GroundDriveController.UpdateAutoPilot engine pos vel s).1.pathStatus.path_time =
      s.pathStatus.path_time ∧
    (GroundDriveController.UpdateAutoPilot engine pos vel s).2.stabDesired =
      (GroundDriveController.updateGroundDesiredAttitude
        (GroundDriveController.updatePathVelocity engine
          s.groundSettings.CourseFeedForward pos vel s).1).1.2 :=
  ⟨rfl, rfl, rfl⟩

/-- **C6.** The Command Mapper: for every horizontal command vector
`(north, east)`, the output course angle is `atan2(east, north)` (in degrees,
the vehicle heading convention) and the throttle magnitude is
`sqrt(north² + east²)` clamped to `[thrustMin, thrustMax]`; and whenever the
limits are well-formed and the magnitude exceeds `thrustMax`, the throttle
equals exactly `thrustMax` while the course angle is unaffected by the
clamp. -/
theorem grounddrive_C6 (gs : GroundPathFollowerSettingsData) (n e : ℝ) :
    ((groundCommandMap gs n e).Yaw = RAD2DEG (atan2 e n) ∧
     (groundCommandMap gs n e).Thrust =
       boundf (Real.sqrt (squaref n + squaref e)) gs.ThrustLimit.Min gs.ThrustLimit.Max) ∧
    (gs.ThrustLimit.Min ≤ gs.ThrustLimit.Max →
     gs.ThrustLimit.Max < Real.sqrt (squaref n + squaref e) →
     (groundCommandMap gs n e).Thrust = gs.ThrustLimit.Max ∧
     (groundCommandMap gs n e).Yaw = RAD2DEG (atan2 e n)) := by
  refine ⟨⟨rfl, rfl⟩, fun hle hsat => ⟨?_, rfl⟩⟩
  show boundf (Real.sqrt (squaref n + squaref e)) gs.ThrustLimit.Min gs.ThrustLimit.Max =
    gs.ThrustLimit.Max
  have hnotlt : ¬ Real.sqrt (squaref n + squaref e) < gs.ThrustLimit.Min :=
    not_lt.mpr (le_trans hle (le_of_lt hsat))
  rw [boundf, if_neg hnotlt, if_pos hsat]

/-- Witness for C6: with thrust limits `[0, 1]` (from `gsW`) and the command
vector `(3, 4)` of magnitude 5 > 1, the mapped throttle equals exactly the
upper limit 1. -/
theorem grounddrive_C6_witness :
    gsW.ThrustLimit.Min ≤ gsW.ThrustLimit.Max ∧
    gsW.ThrustLimit.Max < Real.sqrt (squaref 3 + squaref 4) ∧
    (groundCommandMap gsW 3 4).Thrust = gsW.ThrustLimit.Max := by
  have h1 : gsW.ThrustLimit.Min ≤ gsW.ThrustLimit.Max := by norm_num [gsW]
  have h2 : gsW.ThrustLimit.Max < Real.sqrt (squaref 3 + squaref 4) := by
    have : squaref (3:ℝ) + squaref 4 = 25 := by norm_num [squaref]
    rw [this, sqrt_twentyfive]
    norm_num [gsW]
  exact ⟨h1, h2, ((grounddrive_C6 gsW 3 4).2 h1 h2).1⟩
